import Mathlib

/-!
Shallow embedding of the voice-dispatch logic of web-slinger-dispatch.

The embedding covers:
* `parseVoiceToIncident` and `fallbackParsing` from
  `src/project/src/lib/geminiService.ts` (voice transcript parsing),
* `geocodeLocation`, `reverseGeocode` and `resolveLocation` from the
  geocoding part of the same library,
* the proximity-announcer logic of the `ChatbotAssistant` component
  (the monitoring `useEffect` and `generateLocationReport`).

JavaScript numbers are modelled as `ℚ` (the code only compares, clamps
and defaults its numeric values, so exact rational arithmetic coincides
with the float behaviour on every value the claims mention).  Rational
constants are written with `mkRat` so that all definitions evaluate by
kernel reduction.  Network collaborators (Gemini, Nominatim, Convex) are
modelled as explicit inputs describing the observable outcome of each
call; a thrown-and-caught exception becomes an explicit failure
constructor, and an uncaught throw becomes `Except.error`.
-/

/-- Bool test that the first list of characters is a prefix of the second,
comparing characters exactly.  Used to model JavaScript
`String.prototype.includes`. -/
def beginsWith : List Char → List Char → Bool
  | [], _ => true
  | _ :: _, [] => false
  | p :: ps, c :: cs => p == c && beginsWith ps cs

/-- Bool test that `needle` occurs somewhere in `hay`; models JavaScript
`hay.includes(needle)` (case-sensitive substring test). -/
def hasSub : List Char → List Char → Bool
  | [], needle => needle.isEmpty
  | c :: rest, needle => beginsWith needle (c :: rest) || hasSub rest needle

/-- Model of JavaScript `s.includes(sub)`. -/
def jsIncludes (s sub : String) : Bool := hasSub s.data sub.data

/-- Model of JavaScript `s.toLowerCase()` (the code only feeds it ASCII
text, where per-character lowering agrees with the JS locale-independent
lowering). -/
def jsToLower (s : String) : String := String.mk (s.data.map Char.toLower)

/-- Model of JavaScript `String.prototype.trim`: strip whitespace from
both ends. -/
def jsTrim (cs : List Char) : List Char :=
  ((cs.dropWhile Char.isWhitespace).reverse.dropWhile Char.isWhitespace).reverse

/-- Case-insensitive prefix match, modelling how a literal fragment of a
`/.../i` JavaScript regex matches at a given position. -/
def matchesCI : List Char → List Char → Bool
  | [], _ => true
  | _ :: _, [] => false
  | p :: ps, c :: cs => p.toLower == c.toLower && matchesCI ps cs

/-- Character class `[a-z\s]` of the street-name regexes under the `/i`
flag: an ASCII letter or a whitespace character. -/
def isWordSpaceChar (c : Char) : Bool := c.isAlpha || c.isWhitespace

/-- Street-type suffix alternatives of the location regexes in
`fallbackParsing`, in their source order (the order matters for the
regex alternation). -/
def streetSuffixes : List String :=
  ["street", "st", "avenue", "ave", "road", "rd",
   "boulevard", "blvd", "drive", "dr", "lane", "ln"]

/-- Capture of the group `([a-z\s]+(?:street|st|...))` at the start of
`cs`, following the backtracking semantics of the JS regex engine: the
`[a-z\s]+` part is greedy and backtracks one character at a time, and at
each backtracking position the alternation is tried in source order.
Returns the exact characters captured (original case). -/
def groupCapture (suffixes : List String) (cs : List Char) : Option (List Char) :=
  let n := (cs.takeWhile isWordSpaceChar).length
  (List.range n).findSome? (fun k =>
    suffixes.findSome? (fun suf =>
      if matchesCI suf.data (cs.drop (n - k)) then
        some (cs.take (n - k + suf.data.length))
      else none))

/-- Capture of the group `([a-z\s]+)` of the `near` regex: the maximal
nonempty run of letters and whitespace. -/
def groupCaptureAny (cs : List Char) : Option (List Char) :=
  let run := cs.takeWhile isWordSpaceChar
  if run.isEmpty then none else some run

/-- Leftmost-match search of `text.match(/marker(group)/i)`: at each
position of the text, the literal marker must match case-insensitively
and the group must match right after it; the first position where both
succeed yields the capture. -/
def searchCapture (marker : String) (grp : List Char → Option (List Char)) :
    List Char → Option (List Char)
  | [] => none
  | c :: rest =>
    match (if matchesCI marker.data (c :: rest) then
             grp ((c :: rest).drop marker.data.length)
           else none) with
    | some cap => some cap
    | none => searchCapture marker grp rest

/-- Location extraction loop of `fallbackParsing`: try the three
`streetPatterns` in order (`on`, `at`, `near`), returning the trimmed
first capture group of the first pattern that matches. -/
def extractStreetName (text : String) : Option String :=
  match searchCapture "on " (groupCapture streetSuffixes) text.data with
  | some cap => some (String.mk (jsTrim cap))
  | none =>
    match searchCapture "at " (groupCapture streetSuffixes) text.data with
    | some cap => some (String.mk (jsTrim cap))
    | none =>
      match searchCapture "near " groupCaptureAny text.data with
      | some cap => some (String.mk (jsTrim cap))
      | none => none

/-- The `ParsedIncident` interface of `geminiService.ts`.  The
`incident_type` and `severity` union types are modelled as strings (the
coercion logic of the claims is about which strings can appear). -/
structure ParsedIncident where
  incident_type : String
  description : String
  location_name : String
  severity : String
  confidence : ℚ
deriving DecidableEq

deriving instance DecidableEq for Except

/-- The `validTypes` list of `parseVoiceToIncident`. -/
def validTypes : List String := ["crime", "accident", "fire", "medical", "hazard", "other"]

/-- The `validSeverities` list of `parseVoiceToIncident`. -/
def validSeverities : List String := ["low", "medium", "high", "critical"]

/-- Keyword cascade of `fallbackParsing` assigning `incident_type` and
`severity` from the lowercased transcript. -/
def fallbackTypeSeverity (lowerText : String) : String × String :=
  if jsIncludes lowerText "fire" || jsIncludes lowerText "burning" ||
     jsIncludes lowerText "smoke" then ("fire", "critical")
  else if jsIncludes lowerText "accident" || jsIncludes lowerText "crash" ||
     jsIncludes lowerText "collision" then ("accident", "high")
  else if jsIncludes lowerText "medical" || jsIncludes lowerText "injured" ||
     jsIncludes lowerText "hurt" then ("medical", "high")
  else if jsIncludes lowerText "crime" || jsIncludes lowerText "robbery" ||
     jsIncludes lowerText "theft" then ("crime", "high")
  else if jsIncludes lowerText "tree" || jsIncludes lowerText "debris" ||
     jsIncludes lowerText "blocking" || jsIncludes lowerText "pothole" ||
     jsIncludes lowerText "obstruction" then ("hazard", "medium")
  else ("other", "medium")

/-- The `fallbackParsing` function of `geminiService.ts`: keyword-based
incident classification, street-pattern location extraction with default
`"Current location"`, description truncated to 100 characters, fixed
confidence 0.5. -/
def fallbackParsing (text : String) : ParsedIncident :=
  let lowerText := jsToLower text
  let ts := fallbackTypeSeverity lowerText
  { incident_type := ts.1
    description := String.mk (text.data.take 100)
    location_name := (extractStreetName text).getD "Current location"
    severity := ts.2
    confidence := mkRat 1 2 }

/-- Parsed JSON object of a Gemini response, after
`JSON.parse`.  String fields model both a missing field and an empty
string as `""` (both are falsy in the `!parsed.incident_type` check).
`confidence` holds the result of `parseFloat(parsed.confidence)`:
`none` when that is `NaN` (absent or unparseable), `some q` when it
parses to the number `q`. -/
structure RawParsed where
  incident_type : String
  description : String
  location_name : String
  severity : String
  confidence : Option ℚ
deriving DecidableEq

/-- Observable outcome of the Gemini call inside the `try` block of
`parseVoiceToIncident`: `failure` is any thrown error (network failure,
API error, or a `JSON.parse` error on a malformed response); `success`
carries the parsed JSON object. -/
inductive AIOutcome where
  | failure
  | success (raw : RawParsed)
deriving DecidableEq

/-- Coercion step of `parseVoiceToIncident` on a validated response:
invalid `incident_type` becomes `"other"`, invalid `severity` becomes
`"medium"`, and `confidence` becomes
`Math.max(0, Math.min(1, parseFloat(c) || 0.5))` — note that `|| 0.5`
replaces both `NaN` and the (falsy) number `0`. -/
def coerceRaw (raw : RawParsed) : ParsedIncident :=
  { incident_type :=
      if raw.incident_type ∈ validTypes then raw.incident_type else "other"
    description := raw.description
    location_name := raw.location_name
    severity :=
      if raw.severity ∈ validSeverities then raw.severity else "medium"
    confidence :=
      max 0 (min 1 (match raw.confidence with
        | some q => if q = 0 then mkRat 1 2 else q
        | none => mkRat 1 2)) }

/-- The `parseVoiceToIncident` function of `geminiService.ts`.
`keyConfigured` models whether `VITE_GEMINI_API_KEY` is set; when it is
not, the function throws before entering the `try` block (modelled as
`Except.error`).  Inside the `try` block every thrown error — AI
failure, malformed JSON, or the explicit missing-required-fields throw —
is caught and answered with `fallbackParsing voiceText`. -/
def parseVoiceToIncident (keyConfigured : Bool) (ai : AIOutcome)
    (voiceText : String) : Except String ParsedIncident :=
  if !keyConfigured then
    Except.error "Gemini API key not configured. Please add VITE_GEMINI_API_KEY to your .env file."
  else
    match ai with
    | AIOutcome.failure => Except.ok (fallbackParsing voiceText)
    | AIOutcome.success raw =>
      if raw.incident_type == "" || raw.description == "" || raw.location_name == "" then
        Except.ok (fallbackParsing voiceText)
      else
        Except.ok (coerceRaw raw)

theorem fallbackTypeSeverity_mem (s : String) :
    (fallbackTypeSeverity s).1 ∈ validTypes
  ∧ (fallbackTypeSeverity s).2 ∈ validSeverities := by
  unfold fallbackTypeSeverity
  split_ifs <;> exact ⟨by decide, by decide⟩

theorem clamp01_bounds (x : ℚ) :
    0 ≤ max 0 (min 1 x) ∧ max 0 (min 1 x) ≤ 1 :=
  ⟨le_max_left 0 _, max_le (by decide) (min_le_left 1 x)⟩

theorem coerceRaw_type_mem (raw : RawParsed) :
    (coerceRaw raw).incident_type ∈ validTypes := by
  by_cases h : raw.incident_type ∈ validTypes
  · simp [coerceRaw, h]
  · simp only [coerceRaw, h, if_false]
    decide

theorem coerceRaw_confidence_bounds (raw : RawParsed) :
    0 ≤ (coerceRaw raw).confidence ∧ (coerceRaw raw).confidence ≤ 1 :=
  clamp01_bounds _

/-- The `GeocodingResult` interface of the geocoding service. -/
structure GeocodingResult where
  lat : ℚ
  lng : ℚ
  display_name : String
  confidence : ℚ
deriving DecidableEq

/-- One entry of the Nominatim search response, with numeric fields
already passed through `parseFloat`: `importance` is `none` when
`parseFloat(result.importance)` is `NaN` (field absent or unparseable)
and `some q` when it parses to the number `q`. -/
structure NominatimItem where
  lat : ℚ
  lon : ℚ
  display_name : String
  importance : Option ℚ
deriving DecidableEq

/-- Observable outcome of the `fetch` in `geocodeLocation`:
`netError` is a rejected fetch or a `response.json()` throw, `badStatus`
a non-OK HTTP response, and `ok` carries the decoded JSON body (`none`
models a `null` body for the `!data` check). -/
inductive SearchResponse where
  | netError
  | badStatus
  | ok (data : Option (List NominatimItem))
deriving DecidableEq

/-- The `geocodeLocation` function: every failure (thrown and caught, or
an empty candidate list) yields `null`; on a nonempty candidate list the
first entry is returned with
`confidence = Math.min(parseFloat(importance) || 0.5, 1.0)` — `|| 0.5`
replaces both `NaN` and the (falsy) number `0`, and there is no lower
clamp. -/
def geocodeLocation : SearchResponse → Option GeocodingResult
  | SearchResponse.netError => none
  | SearchResponse.badStatus => none
  | SearchResponse.ok none => none
  | SearchResponse.ok (some []) => none
  | SearchResponse.ok (some (item :: _)) =>
    let confidence : ℚ :=
      match item.importance with
      | some q => if q = 0 then mkRat 1 2 else q
      | none => mkRat 1 2
    some { lat := item.lat, lng := item.lon,
           display_name := item.display_name,
           confidence := min confidence 1 }

/-- Decoded body of the Nominatim reverse-geocoding response: its
`display_name` string (`""` models both a missing and an empty field,
both falsy in the `!data.display_name` check). -/
structure ReverseData where
  display_name : String
deriving DecidableEq

/-- Observable outcome of the `fetch` in `reverseGeocode`, as in
`SearchResponse`. -/
inductive ReverseResponse where
  | netError
  | badStatus
  | ok (data : Option ReverseData)
deriving DecidableEq

/-- The `reverseGeocode` function: `null` on any failure or on a
response without a (nonempty) `display_name`, otherwise the display
name. -/
def reverseGeocode : ReverseResponse → Option String
  | ReverseResponse.netError => none
  | ReverseResponse.badStatus => none
  | ReverseResponse.ok none => none
  | ReverseResponse.ok (some d) =>
    if d.display_name == "" then none else some d.display_name

/-- A latitude/longitude pair (the `{ lat, lng }` objects of the code). -/
structure Coord where
  lat : ℚ
  lng : ℚ
deriving DecidableEq

/-- Result type of `resolveLocation`. -/
structure ResolvedLocation where
  lat : ℚ
  lng : ℚ
  location_name : String
deriving DecidableEq

/-- The `currentLocationKeywords` list of `resolveLocation`. -/
def currentLocationKeywords : List String :=
  ["current location", "here", "my location", "this location"]

/-- Self-reference test of `resolveLocation`:
`currentLocationKeywords.some(kw => locationName.toLowerCase().includes(kw))`. -/
def isSelfReferential (locationName : String) : Bool :=
  currentLocationKeywords.any (fun kw => jsIncludes (jsToLower locationName) kw)

/-- The `resolveLocation` function.  Its two network collaborators are
passed as the observable outcomes of their calls: `revGeo` is what
`reverseGeocode(userLocation.lat, userLocation.lng)` returns and
`geocoded` is what `geocodeLocation(locationName, userLocation)`
returns. -/
def resolveLocation (locationName : String) (userLocation : Option Coord)
    (revGeo : Option String) (geocoded : Option GeocodingResult) :
    Option ResolvedLocation :=
  if isSelfReferential locationName then
    match userLocation with
    | none => none
    | some u =>
      some { lat := u.lat, lng := u.lng,
             location_name := revGeo.getD "Current Location" }
  else
    let fb : Option ResolvedLocation :=
      match userLocation with
      | some u =>
        some { lat := u.lat, lng := u.lng,
               location_name := revGeo.getD locationName }
      | none => none
    match geocoded with
    | some g =>
      if g.confidence > mkRat 1 2 then
        some { lat := g.lat, lng := g.lng, location_name := g.display_name }
      else fb
    | none => fb

/-- Projection of a Convex incident document to the fields the proximity
announcer reads: its identifier `_id` and its coordinates.  The
remaining fields (`incident_type`, `description`, `location_name`, ...)
feed only the wording of the spoken message, which no claim mentions. -/
structure Incident where
  id : String
  latitude : ℚ
  longitude : ℚ
deriving DecidableEq

/-- The `pinned | user` tag of a monitored location. -/
inductive LocType where
  | pinned
  | user
deriving DecidableEq

/-- One entry of the `locationsToMonitor` array built by the monitoring
`useEffect`: coordinates, display name, tag, and the stable key
(`pinned-lat-lng` or `user-lat-lng`) used for the `monitoredLocations`
set. -/
structure MonPoint where
  lat : ℚ
  lng : ℚ
  name : String
  ptype : LocType
  key : String
deriving DecidableEq

/-- Per-session announcer state of `ChatbotAssistant`:
`lastAnnounced` models the `lastAnnouncedIncidents` array of incident
identifiers and `monitored` the `monitoredLocations` set of location
keys (a list used with set semantics, as membership is all the code
tests). -/
structure AnnouncerState where
  lastAnnounced : List String
  monitored : List String
deriving DecidableEq

/-- Distance function `calculateDistance(lat1, lon1, lat2, lon2)`.  The
source computes a haversine great-circle distance in miles; the
announcer logic only compares its result with the 3-mile radius, and
every claim about the announcer holds for an arbitrary distance
function, so it is kept as a parameter of the embedding. -/
def DistFn : Type := ℚ → ℚ → ℚ → ℚ → ℚ

/-- One element of the `allNewIncidents` array: the incident, its
distance from the monitored point, and the tag of the point. -/
structure NewEntry where
  incident : Incident
  distance : ℚ
  locationType : LocType
deriving DecidableEq

/-- Construction `Array.from(new Set([...prev, ...allCurrentIncidents]))`:
deduplicate, keeping the first occurrence of each element. -/
def jsDedup : List String → List String
  | [] => []
  | a :: l => a :: jsDedup (l.filter (fun b => b != a))
termination_by l => l.length
decreasing_by
  simp only [List.length_cons]
  exact Nat.lt_succ_of_le (List.length_filter_le _ _)

/-- Body of the inner `newIncidents.forEach` of the monitoring effect
for one incident: push an entry unless one with the same `_id` is
already in the accumulator (the overlapping-areas dedup). -/
def innerStep (dist : DistFn) (p : MonPoint) (acc2 : List NewEntry)
    (i : Incident) : List NewEntry :=
  if acc2.any (fun e => e.incident.id == i.id) then acc2
  else acc2 ++ [{ incident := i,
                  distance := dist p.lat p.lng i.latitude i.longitude,
                  locationType := p.ptype }]

/-- Inner `newIncidents.forEach` of the monitoring effect. -/
def collectInner (dist : DistFn) (p : MonPoint) (newInc : List Incident)
    (acc : List NewEntry) : List NewEntry :=
  newInc.foldl (innerStep dist p) acc

/-- Body of the `locationsToMonitor.forEach` of the monitoring effect
for one point: points whose key is not yet in `monitoredLocations` are
skipped (`if (!monitoredLocations.has(key)) return`); for the others,
incidents within 3 miles and not in `lastAnnouncedIncidents` are
gathered into the accumulator (dedup by `_id`). -/
def collectStep (dist : DistFn) (incs : List Incident)
    (monitored lastAnnounced : List String) (acc : List NewEntry)
    (p : MonPoint) : List NewEntry :=
  if p.key ∈ monitored then
    let nearby := incs.filter
      (fun i => dist p.lat p.lng i.latitude i.longitude ≤ 3)
    let newInc := nearby.filter (fun i => !(i.id ∈ lastAnnounced : Bool))
    collectInner dist p newInc acc
  else acc

/-- The `locationsToMonitor.forEach` of the monitoring effect, building
the `allNewIncidents` array. -/
def collectNew (dist : DistFn) (incs : List Incident)
    (monitored lastAnnounced : List String) (points : List MonPoint) :
    List NewEntry :=
  points.foldl (collectStep dist incs monitored lastAnnounced) []

/-- One run of the monitoring `useEffect` of `ChatbotAssistant`
(lines 466-582): `incidents` is the Convex query result (`none` while
loading), `points` the `locationsToMonitor` array built from the pinned
location and the user location, `st` the render-time state.  Returns the
state after React applies the queued updates, paired with the
`allNewIncidents` list that is announced (chat message + speech) during
the run.  Both the `monitoredLocations.has(key)` check and the
`lastAnnouncedIncidents.includes(...)` filter read the render-time state
`st`, while the bulk merge and the final append are queued functional
updates. -/
def monitorTick (dist : DistFn) (incidents : Option (List Incident))
    (points : List MonPoint) (st : AnnouncerState) :
    AnnouncerState × List NewEntry :=
  match incidents with
  | none => (st, [])
  | some incs =>
    if points.isEmpty then ({ st with monitored := [] }, [])
    else
      let currentKeys := points.map (fun p => p.key)
      let newKeys := currentKeys.filter (fun k => !(k ∈ st.monitored : Bool))
      let afterBulk : AnnouncerState :=
        if newKeys.isEmpty then st
        else { lastAnnounced := jsDedup (st.lastAnnounced ++ incs.map (fun i => i.id)),
               monitored := currentKeys }
      let allNew := collectNew dist incs st.monitored st.lastAnnounced points
      (if allNew.isEmpty then afterBulk
       else { afterBulk with
              lastAnnounced := afterBulk.lastAnnounced ++ allNew.map (fun e => e.incident.id) },
       allNew)

/-- The `generateLocationReport` function of `ChatbotAssistant`
(lines 758-786), reduced to its state effect: it filters the incidents
within 3 miles of the newly pinned location for the report message and
**replaces** `lastAnnouncedIncidents` with exactly the identifiers of
those nearby incidents
(`setLastAnnouncedIncidents(nearbyIncidents.map(i => i._id))`).
Returns the nearby incidents (the report content) and the new
`lastAnnouncedIncidents` value. -/
def generateLocationReport (dist : DistFn) (incidents : Option (List Incident))
    (loc : Coord) : List Incident × List String :=
  let nearbyIncidents := (incidents.getD []).filter
    (fun i => dist loc.lat loc.lng i.latitude i.longitude ≤ 3)
  (nearbyIncidents, nearbyIncidents.map (fun i => i.id))

/-- Pinning a location (`handleLocationSearch` / `handleSelectSearchResult`):
sets the pinned location and runs `generateLocationReport`, whose state
effect replaces `lastAnnouncedIncidents`; `monitoredLocations` is left
unchanged (it is only updated in the next monitoring tick). -/
def pinLocation (dist : DistFn) (incidents : Option (List Incident))
    (loc : Coord) (st : AnnouncerState) : AnnouncerState :=
  { st with lastAnnounced := (generateLocationReport dist incidents loc).2 }

/-- Unpinning the monitored location (the clear button): keeps
`lastAnnouncedIncidents` (the code comments say so explicitly) and
resets `monitoredLocations` to the empty set. -/
def unpinLocation (st : AnnouncerState) : AnnouncerState :=
  { st with monitored := [] }

/-- Incident identifiers of a list of announcement entries. -/
def entryIds (es : List NewEntry) : List String :=
  es.map (fun e => e.incident.id)

theorem entryIds_append (es fs : List NewEntry) :
    entryIds (es ++ fs) = entryIds es ++ entryIds fs := by
  simp [entryIds]

theorem mem_entryIds_innerStep (dist : DistFn) (p : MonPoint)
    (acc : List NewEntry) (i : Incident) (x : String)
    (h : x ∈ entryIds acc) : x ∈ entryIds (innerStep dist p acc i) := by
  unfold innerStep
  split
  · exact h
  · rw [entryIds_append]
    exact List.mem_append.mpr (Or.inl h)

theorem self_mem_entryIds_innerStep (dist : DistFn) (p : MonPoint)
    (acc : List NewEntry) (i : Incident) :
    i.id ∈ entryIds (innerStep dist p acc i) := by
  unfold innerStep
  split
  · next h =>
    obtain ⟨e, he, heq⟩ := List.any_eq_true.mp h
    exact List.mem_map.mpr ⟨e, he, beq_iff_eq.mp heq⟩
  · rw [entryIds_append]
    exact List.mem_append.mpr (Or.inr (by simp [entryIds]))

theorem mem_entryIds_foldl_inner (dist : DistFn) (p : MonPoint) :
    ∀ (l : List Incident) (acc : List NewEntry) (x : String),
      x ∈ entryIds acc → x ∈ entryIds (List.foldl (innerStep dist p) acc l) := by
  intro l
  induction l with
  | nil => intro acc x h; exact h
  | cons i l ih =>
    intro acc x h
    rw [List.foldl_cons]
    exact ih _ _ (mem_entryIds_innerStep dist p acc i x h)

theorem mem_entryIds_collectInner (dist : DistFn) (p : MonPoint) :
    ∀ (l : List Incident) (acc : List NewEntry) (i : Incident),
      i ∈ l → i.id ∈ entryIds (collectInner dist p l acc) := by
  intro l
  induction l with
  | nil => intro acc i h; cases h
  | cons j l ih =>
    intro acc i h
    unfold collectInner
    rw [List.foldl_cons]
    rcases List.mem_cons.mp h with rfl | hm
    · exact mem_entryIds_foldl_inner dist p l _ _ (self_mem_entryIds_innerStep dist p acc i)
    · exact ih _ _ hm

theorem mem_entryIds_collectStep (dist : DistFn) (incs : List Incident)
    (monitored lastAnnounced : List String) (acc : List NewEntry)
    (p : MonPoint) (x : String) (h : x ∈ entryIds acc) :
    x ∈ entryIds (collectStep dist incs monitored lastAnnounced acc p) := by
  unfold collectStep
  split
  · exact mem_entryIds_foldl_inner dist p _ _ _ h
  · exact h

theorem mem_entryIds_foldl_outer (dist : DistFn) (incs : List Incident)
    (monitored lastAnnounced : List String) :
    ∀ (points : List MonPoint) (acc : List NewEntry) (x : String),
      x ∈ entryIds acc →
      x ∈ entryIds (List.foldl (collectStep dist incs monitored lastAnnounced) acc points) := by
  intro points
  induction points with
  | nil => intro acc x h; exact h
  | cons q points ih =>
    intro acc x h
    rw [List.foldl_cons]
    exact ih _ _ (mem_entryIds_collectStep dist incs monitored lastAnnounced acc q x h)

theorem collectNew_complete (dist : DistFn) (incs : List Incident)
    (monitored lastAnnounced : List String) (points : List MonPoint)
    (p : MonPoint) (i : Incident)
    (hp : p ∈ points) (hmon : p.key ∈ monitored) (hi : i ∈ incs)
    (hnear : dist p.lat p.lng i.latitude i.longitude ≤ 3)
    (hnew : i.id ∉ lastAnnounced) :
    i.id ∈ entryIds (collectNew dist incs monitored lastAnnounced points) := by
  unfold collectNew
  suffices h : ∀ (pts : List MonPoint) (acc : List NewEntry), p ∈ pts →
      i.id ∈ entryIds (List.foldl (collectStep dist incs monitored lastAnnounced) acc pts) from
    h points [] hp
  intro pts
  induction pts with
  | nil => intro acc h; cases h
  | cons q pts ih =>
    intro acc h
    rw [List.foldl_cons]
    rcases List.mem_cons.mp h with rfl | hm
    · apply mem_entryIds_foldl_outer
      unfold collectStep
      rw [if_pos hmon]
      apply mem_entryIds_collectInner
      refine List.mem_filter.mpr ⟨List.mem_filter.mpr ⟨hi, ?_⟩, ?_⟩
      · exact decide_eq_true hnear
      · simpa using hnew
    · exact ih _ hm

theorem collectNew_eq_nil (dist : DistFn) (incs : List Incident)
    (monitored lastAnnounced : List String) (points : List MonPoint)
    (h : ∀ p ∈ points, p.key ∈ monitored → ∀ i ∈ incs,
      dist p.lat p.lng i.latitude i.longitude ≤ 3 → i.id ∈ lastAnnounced) :
    collectNew dist incs monitored lastAnnounced points = [] := by
  unfold collectNew
  suffices haux : ∀ (pts : List MonPoint),
      (∀ p ∈ pts, p.key ∈ monitored → ∀ i ∈ incs,
        dist p.lat p.lng i.latitude i.longitude ≤ 3 → i.id ∈ lastAnnounced) →
      ∀ (acc : List NewEntry),
        List.foldl (collectStep dist incs monitored lastAnnounced) acc pts = acc from
    haux points h []
  intro pts
  induction pts with
  | nil => intro _ acc; rfl
  | cons q pts ih =>
    intro hq acc
    rw [List.foldl_cons]
    have hstep : collectStep dist incs monitored lastAnnounced acc q = acc := by
      unfold collectStep
      split
      · next hmon =>
        have hnil : (incs.filter
            (fun i => dist q.lat q.lng i.latitude i.longitude ≤ 3)).filter
              (fun i => !(i.id ∈ lastAnnounced : Bool)) = [] := by
          rw [List.filter_eq_nil_iff]
          intro i hi
          obtain ⟨hi_mem, hi_near⟩ := List.mem_filter.mp hi
          have hla := hq q (List.mem_cons_self q pts) hmon i hi_mem (of_decide_eq_true hi_near)
          simp [hla]
        simp only [hnil]
        rfl
      · rfl
    rw [hstep]
    exact ih (fun p hp => hq p (List.mem_cons_of_mem q hp)) acc

theorem foldl_collectStep_filter (dist : DistFn) (incs : List Incident)
    (monitored lastAnnounced : List String) :
    ∀ (points : List MonPoint) (acc : List NewEntry),
      List.foldl (collectStep dist incs monitored lastAnnounced) acc points
        = List.foldl (collectStep dist incs monitored lastAnnounced) acc
            (points.filter (fun p => (p.key ∈ monitored : Bool))) := by
  intro points
  induction points with
  | nil => intro acc; rfl
  | cons q points ih =>
    intro acc
    by_cases hq : q.key ∈ monitored
    · rw [List.foldl_cons, List.filter_cons_of_pos (by simpa using hq), List.foldl_cons]
      exact ih _
    · rw [List.foldl_cons, List.filter_cons_of_neg (by simpa using hq)]
      have : collectStep dist incs monitored lastAnnounced acc q = acc := by
        unfold collectStep
        rw [if_neg hq]
      rw [this]
      exact ih _

theorem mem_jsDedup (x : String) : ∀ (l : List String), x ∈ l → x ∈ jsDedup l := by
  intro l
  induction l using jsDedup.induct with
  | case1 => intro h; cases h
  | case2 a t ih =>
    intro h
    rw [jsDedup]
    rcases List.mem_cons.mp h with rfl | hm
    · exact List.mem_cons_self _ _
    · by_cases hx : x = a
      · subst hx; exact List.mem_cons_self _ _
      · exact List.mem_cons_of_mem a
          (ih (List.mem_filter.mpr ⟨hm, by simpa using hx⟩))

theorem monitorTick_snd (dist : DistFn) (incs : List Incident)
    (points : List MonPoint) (st : AnnouncerState) (hp : points ≠ []) :
    (monitorTick dist (some incs) points st).2
      = collectNew dist incs st.monitored st.lastAnnounced points := by
  cases points with
  | nil => exact absurd rfl hp
  | cons q qs => rfl

theorem monitorTick_fst_lastAnnounced_of_stable (dist : DistFn)
    (incs : List Incident) (points : List MonPoint) (st : AnnouncerState)
    (hp : points ≠ [])
    (hnil : (points.map (fun p => p.key)).filter
      (fun k => !(k ∈ st.monitored : Bool)) = []) :
    (monitorTick dist (some incs) points st).1.lastAnnounced =
      st.lastAnnounced
        ++ entryIds (collectNew dist incs st.monitored st.lastAnnounced points) := by
  cases points with
  | nil => exact absurd rfl hp
  | cons q qs =>
    simp only [monitorTick, List.isEmpty_cons, Bool.false_eq_true, if_false]
    rw [hnil]
    by_cases hAN : collectNew dist incs st.monitored st.lastAnnounced (q :: qs) = []
    · simp [hAN, entryIds]
    · simp [hAN, entryIds, List.isEmpty_iff]

theorem monitorTick_fst_lastAnnounced_of_fresh (dist : DistFn)
    (incs : List Incident) (points : List MonPoint) (st : AnnouncerState)
    (hp : points ≠ [])
    (hnnil : (points.map (fun p => p.key)).filter
      (fun k => !(k ∈ st.monitored : Bool)) ≠ []) :
    (monitorTick dist (some incs) points st).1.lastAnnounced =
      jsDedup (st.lastAnnounced ++ incs.map (fun i => i.id))
        ++ entryIds (collectNew dist incs st.monitored st.lastAnnounced points) := by
  cases points with
  | nil => exact absurd rfl hp
  | cons q qs =>
    have hP : ¬ (q.key ∈ st.monitored ∧ ∀ a ∈ qs, a.key ∈ st.monitored) := by
      intro hc
      apply hnnil
      rw [List.filter_eq_nil_iff]
      intro k hk
      simp only [List.map_cons, List.mem_cons, List.mem_map] at hk
      rcases hk with rfl | ⟨a, ha, rfl⟩
      · simp [hc.1]
      · simp [hc.2 a ha]
    simp only [monitorTick, List.isEmpty_cons, Bool.false_eq_true, if_false]
    by_cases hAN : collectNew dist incs st.monitored st.lastAnnounced (q :: qs) = []
    · simp [hAN, entryIds, hP]
    · simp [hAN, entryIds, List.isEmpty_iff, hP]

theorem monitorTick_fst_monitored_of_stable (dist : DistFn)
    (incs : List Incident) (points : List MonPoint) (st : AnnouncerState)
    (hp : points ≠ [])
    (hnil : (points.map (fun p => p.key)).filter
      (fun k => !(k ∈ st.monitored : Bool)) = []) :
    (monitorTick dist (some incs) points st).1.monitored = st.monitored := by
  cases points with
  | nil => exact absurd rfl hp
  | cons q qs =>
    simp only [monitorTick, List.isEmpty_cons, Bool.false_eq_true, if_false]
    rw [hnil]
    by_cases hAN : collectNew dist incs st.monitored st.lastAnnounced (q :: qs) = []
    · simp [hAN]
    · simp [hAN, List.isEmpty_iff]

theorem monitorTick_fst_monitored_of_fresh (dist : DistFn)
    (incs : List Incident) (points : List MonPoint) (st : AnnouncerState)
    (hp : points ≠ [])
    (hnnil : (points.map (fun p => p.key)).filter
      (fun k => !(k ∈ st.monitored : Bool)) ≠ []) :
    (monitorTick dist (some incs) points st).1.monitored
      = points.map (fun p => p.key) := by
  cases points with
  | nil => exact absurd rfl hp
  | cons q qs =>
    have hP : ¬ (q.key ∈ st.monitored ∧ ∀ a ∈ qs, a.key ∈ st.monitored) := by
      intro hc
      apply hnnil
      rw [List.filter_eq_nil_iff]
      intro k hk
      simp only [List.map_cons, List.mem_cons, List.mem_map] at hk
      rcases hk with rfl | ⟨a, ha, rfl⟩
      · simp [hc.1]
      · simp [hc.2 a ha]
    simp only [monitorTick, List.isEmpty_cons, Bool.false_eq_true, if_false]
    by_cases hAN : collectNew dist incs st.monitored st.lastAnnounced (q :: qs) = []
    · simp [hAN, hP]
    · simp [hAN, List.isEmpty_iff, hP]

/-- C3: proximity re-evaluation is idempotent — running the announcer
evaluation step twice with the same incident collection and the
same monitored points produces no announcement, because everything the
first run selected was appended to `lastAnnouncedIncidents` (or bulk
merged there) and announced incidents are always subtracted before
announcing. -/
theorem proximity_evaluation_idempotent (dist : DistFn)
    (incidents : Option (List Incident)) (points : List MonPoint)
    (st : AnnouncerState) :
    (monitorTick dist incidents points
      (monitorTick dist incidents points st).1).2 = [] := by
  cases incidents with
  | none => rfl
  | some incs =>
    by_cases hp : points = []
    · subst hp; rfl
    · rw [monitorTick_snd dist incs points _ hp]
      apply collectNew_eq_nil
      intro p hpm hmon i hi hnear
      by_cases hnk : (points.map (fun p => p.key)).filter
          (fun k => !(k ∈ st.monitored : Bool)) = []
      · rw [monitorTick_fst_monitored_of_stable dist incs points st hp hnk] at hmon
        rw [monitorTick_fst_lastAnnounced_of_stable dist incs points st hp hnk]
        by_cases hla : i.id ∈ st.lastAnnounced
        · exact List.mem_append.mpr (Or.inl hla)
        · exact List.mem_append.mpr (Or.inr
            (collectNew_complete dist incs st.monitored st.lastAnnounced
              points p i hpm hmon hi hnear hla))
      · rw [monitorTick_fst_lastAnnounced_of_fresh dist incs points st hp hnk]
        exact List.mem_append.mpr (Or.inl
          (mem_jsDedup _ _ (List.mem_append.mpr
            (Or.inr (List.mem_map.mpr ⟨i, hi, rfl⟩)))))

/-- C4: a monitored point that is newly added in the current tick never
triggers an announcement in that tick — the announced entries are
exactly those collected over the points that were already monitored, and
when some point is new, every incident within 3 miles of it (indeed
every current incident) is bulk-marked as announced in the resulting
state. -/
theorem newly_added_point_not_announced (dist : DistFn) (incs : List Incident)
    (points : List MonPoint) (st : AnnouncerState) :
    ((monitorTick dist (some incs) points st).2
      = collectNew dist incs st.monitored st.lastAnnounced
          (points.filter (fun p => (p.key ∈ st.monitored : Bool))))
  ∧ (∀ p ∈ points, p.key ∉ st.monitored → ∀ i ∈ incs,
      dist p.lat p.lng i.latitude i.longitude ≤ 3 →
      i.id ∈ (monitorTick dist (some incs) points st).1.lastAnnounced) := by
  constructor
  · by_cases hp : points = []
    · subst hp; rfl
    · rw [monitorTick_snd dist incs points st hp]
      unfold collectNew
      exact foldl_collectStep_filter dist incs st.monitored st.lastAnnounced points []
  · intro p hpm hnot i hi hnear
    have hp : points ≠ [] := by intro h; subst h; cases hpm
    have hnk : (points.map (fun p => p.key)).filter
        (fun k => !(k ∈ st.monitored : Bool)) ≠ [] := by
      intro hfil
      rw [List.filter_eq_nil_iff] at hfil
      have hk := hfil p.key (List.mem_map.mpr ⟨p, hpm, rfl⟩)
      simp [hnot] at hk
    rw [monitorTick_fst_lastAnnounced_of_fresh dist incs points st hp hnk]
    exact List.mem_append.mpr (Or.inl
      (mem_jsDedup _ _ (List.mem_append.mpr
        (Or.inr (List.mem_map.mpr ⟨i, hi, rfl⟩)))))

/-- Witness for C4 at a concrete input: one incident at the origin, one
newly pinned point (not yet monitored); after the tick the incident is
bulk-marked as announced. -/
theorem newly_added_point_not_announced_w :
    "X" ∈ (monitorTick (fun _ _ _ _ => 0)
        (some [{ id := "X", latitude := 0, longitude := 0 }])
        [{ lat := 0, lng := 0, name := "n", ptype := LocType.pinned, key := "pinned-0-0" }]
        { lastAnnounced := [], monitored := [] }).1.lastAnnounced :=
  (newly_added_point_not_announced (fun _ _ _ _ => 0)
      [{ id := "X", latitude := 0, longitude := 0 }]
      [{ lat := 0, lng := 0, name := "n", ptype := LocType.pinned, key := "pinned-0-0" }]
      { lastAnnounced := [], monitored := [] }).2
    { lat := 0, lng := 0, name := "n", ptype := LocType.pinned, key := "pinned-0-0" }
    (by decide) (by decide)
    { id := "X", latitude := 0, longitude := 0 }
    (by decide) (by decide)

/-- C2 (code bug): pinning a location does not preserve the announced
set.  Starting from a state where incident `X` (at the origin, within 3
miles of the already-monitored user location) is in
`lastAnnouncedIncidents`, pinning a far-away location with no nearby
incidents replaces `lastAnnouncedIncidents` with the empty list —
dropping `X` — and the next monitoring tick re-announces `X`.  The
distance function used makes the pinned point (latitude 100) far from
everything and the user point (latitude 0) close to the incident. -/
theorem announced_set_not_monotonic_on_pin :
    ("X" ∈ (({ lastAnnounced := ["X"], monitored := ["user-0-0"] } : AnnouncerState)).lastAnnounced)
  ∧ ("X" ∉ (pinLocation (fun la _ _ _ => if la = 100 then (100 : ℚ) else 0)
      (some [{ id := "X", latitude := 0, longitude := 0 }])
      { lat := 100, lng := 100 }
      { lastAnnounced := ["X"], monitored := ["user-0-0"] }).lastAnnounced)
  ∧ ("X" ∈ ((monitorTick (fun la _ _ _ => if la = 100 then (100 : ℚ) else 0)
      (some [{ id := "X", latitude := 0, longitude := 0 }])
      [{ lat := 100, lng := 100, name := "Far Pin", ptype := LocType.pinned, key := "pinned-100-100" },
       { lat := 0, lng := 0, name := "your current location", ptype := LocType.user, key := "user-0-0" }]
      (pinLocation (fun la _ _ _ => if la = 100 then (100 : ℚ) else 0)
        (some [{ id := "X", latitude := 0, longitude := 0 }])
        { lat := 100, lng := 100 }
        { lastAnnounced := ["X"], monitored := ["user-0-0"] })).2.map
          (fun e => e.incident.id))) := by
  refine ⟨by decide, by decide, by decide⟩

/-- C1 (code bug): when the Gemini API key is not configured,
`parseVoiceToIncident` throws instead of returning the fallback result
(the first conjunct evaluates the unconfigured path); in every other
situation — AI failure, malformed response, or success — it returns a
`ParsedIncident` whose `incident_type` is one of the six enumerated
values and whose confidence lies in `[0, 1]` (second conjunct). -/
theorem parseVoice_unconfigured_throws :
    (parseVoiceToIncident false AIOutcome.failure "A tree fell on Main Street"
      = Except.error "Gemini API key not configured. Please add VITE_GEMINI_API_KEY to your .env file.")
  ∧ ∀ (ai : AIOutcome) (voiceText : String), ∃ r : ParsedIncident,
      parseVoiceToIncident true ai voiceText = Except.ok r
      ∧ r.incident_type ∈ validTypes ∧ 0 ≤ r.confidence ∧ r.confidence ≤ 1 := by
  constructor
  · rfl
  · intro ai voiceText
    cases ai with
    | failure =>
      refine ⟨fallbackParsing voiceText, rfl,
        (fallbackTypeSeverity_mem (jsToLower voiceText)).1, ?_, ?_⟩
      · show (0 : ℚ) ≤ mkRat 1 2
        decide
      · show (mkRat 1 2 : ℚ) ≤ 1
        decide
    | success raw =>
      by_cases hv : (raw.incident_type == "" || raw.description == ""
          || raw.location_name == "") = true
      · refine ⟨fallbackParsing voiceText, ?_,
          (fallbackTypeSeverity_mem (jsToLower voiceText)).1, ?_, ?_⟩
        · simp [parseVoiceToIncident, hv]
        · show (0 : ℚ) ≤ mkRat 1 2
          decide
        · show (mkRat 1 2 : ℚ) ≤ 1
          decide
      · refine ⟨coerceRaw raw, ?_, coerceRaw_type_mem raw,
          (coerceRaw_confidence_bounds raw).1, (coerceRaw_confidence_bounds raw).2⟩
        simp only [parseVoiceToIncident, Bool.not_true, Bool.not_eq_true] at hv ⊢
        simp [hv]

/-- C8 counterexample: a response whose confidence parses to the number
0 is not clamped to 0 (the clamp of 0 to the unit interval) — the falsy
`|| 0.5` replaces it with 0.5 before clamping. -/
theorem confidence_zero_coerced_to_half :
    parseVoiceToIncident true (AIOutcome.success
        { incident_type := "crime", description := "desc", location_name := "loc",
          severity := "low", confidence := some 0 }) "t"
      = Except.ok
          { incident_type := "crime", description := "desc",
            location_name := "loc", severity := "low", confidence := mkRat 1 2 }
  ∧ (mkRat 1 2 : ℚ) ≠ max 0 (min 1 0) := by
  exact ⟨by decide, by decide⟩

/-- C8 (amended): on the AI-success path, after the required-fields
validation passes, an `incident_type` outside the six enumerated values
becomes `"other"`, a `severity` outside the four enumerated values
becomes `"medium"`, and `confidence` is clamped to `[0, 1]` — with 0.5
substituted when it does not parse as a number **or parses to 0**. -/
theorem parseVoice_success_coercion (raw : RawParsed) (voiceText : String)
    (h1 : raw.incident_type ≠ "") (h2 : raw.description ≠ "")
    (h3 : raw.location_name ≠ "") :
    ∃ r : ParsedIncident,
      parseVoiceToIncident true (AIOutcome.success raw) voiceText = Except.ok r
      ∧ (raw.incident_type ∈ validTypes → r.incident_type = raw.incident_type)
      ∧ (raw.incident_type ∉ validTypes → r.incident_type = "other")
      ∧ (raw.severity ∈ validSeverities → r.severity = raw.severity)
      ∧ (raw.severity ∉ validSeverities → r.severity = "medium")
      ∧ (∀ q : ℚ, raw.confidence = some q → q ≠ 0 → r.confidence = max 0 (min 1 q))
      ∧ ((raw.confidence = none ∨ raw.confidence = some 0) →
          r.confidence = mkRat 1 2) := by
  have hv : (raw.incident_type == "" || raw.description == ""
      || raw.location_name == "") = false := by
    simp [h1, h2, h3]
  refine ⟨coerceRaw raw, by simp [parseVoiceToIncident, hv],
    ?_, ?_, ?_, ?_, ?_, ?_⟩
  · intro h; simp [coerceRaw, h]
  · intro h; simp [coerceRaw, h]
  · intro h; simp [coerceRaw, h]
  · intro h; simp [coerceRaw, h]
  · intro q hq hq0
    simp [coerceRaw, hq, hq0]
  · rintro (hc | hc) <;> simp only [coerceRaw, hc] <;> decide

/-- Witness for C8 at a concrete input: an out-of-enum type and
severity with an out-of-range confidence 3/2. -/
theorem parseVoice_success_coercion_w :
    ∃ r : ParsedIncident,
      parseVoiceToIncident true (AIOutcome.success
        { incident_type := "flood", description := "d", location_name := "l",
          severity := "extreme", confidence := some (mkRat 3 2) }) "t" = Except.ok r
      ∧ ("flood" ∈ validTypes → r.incident_type = "flood")
      ∧ ("flood" ∉ validTypes → r.incident_type = "other")
      ∧ ("extreme" ∈ validSeverities → r.severity = "extreme")
      ∧ ("extreme" ∉ validSeverities → r.severity = "medium")
      ∧ (∀ q : ℚ, (some (mkRat 3 2) : Option ℚ) = some q → q ≠ 0 →
          r.confidence = max 0 (min 1 q))
      ∧ (((some (mkRat 3 2) : Option ℚ) = none
            ∨ (some (mkRat 3 2) : Option ℚ) = some 0) →
          r.confidence = mkRat 1 2) :=
  parseVoice_success_coercion
    { incident_type := "flood", description := "d", location_name := "l",
      severity := "extreme", confidence := some (mkRat 3 2) } "t"
    (by decide) (by decide) (by decide)

/-- C9: the deterministic fallback parser on the transcript
`"A tree is blocking the road on Cooper Street!"` yields a hazard of
medium severity with confidence 0.5, the street name extracted by the
`on <street>` pattern, and the transcript itself (44 < 100 characters)
as description. -/
theorem fallback_tree_cooper_street :
    fallbackParsing "A tree is blocking the road on Cooper Street!" =
      { incident_type := "hazard"
        description := "A tree is blocking the road on Cooper Street!"
        location_name := "Cooper Street"
        severity := "medium"
        confidence := mkRat 1 2 } := by decide

/-- C7 counterexample: a (negative) importance score is not clamped to
the unit interval — `Math.min(confidence, 1.0)` has no lower bound, so
importance `-1` yields confidence `-1`, not `max 0 (min 1 (-1)) = 0`. -/
theorem geocode_importance_not_clamped_below :
    geocodeLocation (SearchResponse.ok (some
      [{ lat := 2, lon := 3, display_name := "Somewhere", importance := some (-1) }]))
      = some { lat := 2, lng := 3, display_name := "Somewhere", confidence := -1 }
  ∧ ((-1 : ℚ) ≠ max 0 (min 1 (-1))) := by
  exact ⟨by decide, by decide⟩

/-- C7 (amended): the confidence of a geocoding result equals the
importance score of the provider capped **above** at 1 (no lower clamp), and
equals 0.5 when the importance score is absent, unparseable, **or
zero** (the falsy `|| 0.5`). -/
theorem geocode_confidence_amended (item : NominatimItem)
    (rest : List NominatimItem) :
    ∃ r : GeocodingResult,
      geocodeLocation (SearchResponse.ok (some (item :: rest))) = some r
      ∧ (item.importance = none → r.confidence = mkRat 1 2)
      ∧ (∀ q : ℚ, item.importance = some q → q = 0 → r.confidence = mkRat 1 2)
      ∧ (∀ q : ℚ, item.importance = some q → q ≠ 0 → r.confidence = min q 1) := by
  have hhalf : min (mkRat 1 2 : ℚ) 1 = mkRat 1 2 := by decide
  refine ⟨_, rfl, ?_, ?_, ?_⟩
  · intro h; simp [geocodeLocation, h, hhalf]
  · intro q hq hq0; simp [geocodeLocation, hq, hq0, hhalf]
  · intro q hq hq0; simp [geocodeLocation, hq, hq0]

/-- Witness for C7 (amended) at a concrete input: importance 7/10. -/
theorem geocode_confidence_amended_w :
    ∃ r : GeocodingResult,
      geocodeLocation (SearchResponse.ok (some
        [{ lat := 2, lon := 3, display_name := "S", importance := some (mkRat 7 10) }]))
        = some r
      ∧ ((some (mkRat 7 10) : Option ℚ) = none → r.confidence = mkRat 1 2)
      ∧ (∀ q : ℚ, (some (mkRat 7 10) : Option ℚ) = some q → q = 0 →
          r.confidence = mkRat 1 2)
      ∧ (∀ q : ℚ, (some (mkRat 7 10) : Option ℚ) = some q → q ≠ 0 →
          r.confidence = min q 1) :=
  geocode_confidence_amended
    { lat := 2, lon := 3, display_name := "S", importance := some (mkRat 7 10) } []

/-- C5: for a self-referential location name, `resolveLocation` returns
exactly the caller GPS coordinates (display name from reverse geocoding,
or the literal `"Current Location"` if that fails — `revGeo = none`),
and returns `null` when no caller GPS is supplied, for every outcome of
the forward geocoder (which is therefore never consulted). -/
theorem resolve_self_referential (locationName : String) (u : Coord)
    (revGeo : Option String) (geocoded : Option GeocodingResult)
    (h : isSelfReferential locationName = true) :
    (resolveLocation locationName (some u) revGeo geocoded
      = some { lat := u.lat, lng := u.lng,
               location_name := revGeo.getD "Current Location" })
  ∧ resolveLocation locationName none revGeo geocoded = none := by
  constructor <;> simp [resolveLocation, h]

/-- Witness for C5 at a concrete input: a transcript location containing
`"here"`, with failing reverse geocoding and a (ignored) forward
geocoder answer. -/
theorem resolve_self_referential_w :
    (resolveLocation "crash right here" (some { lat := 1, lng := 2 }) none
        (some { lat := 5, lng := 6, display_name := "G", confidence := 1 })
      = some { lat := 1, lng := 2, location_name := "Current Location" })
  ∧ resolveLocation "crash right here" none none
      (some { lat := 5, lng := 6, display_name := "G", confidence := 1 }) = none :=
  resolve_self_referential "crash right here" { lat := 1, lng := 2 } none
    (some { lat := 5, lng := 6, display_name := "G", confidence := 1 }) (by decide)

/-- C6: for a non-self-referential location name with a caller GPS
available, a missing forward-geocoding result or one with confidence
at most 0.5 makes `resolveLocation` return the caller GPS coordinates
(labelled by reverse geocoding, or by the raw location name); only a
result with confidence strictly above 0.5 is returned as-is. -/
theorem resolve_low_confidence_uses_gps (locationName : String) (u : Coord)
    (revGeo : Option String) (geocoded : Option GeocodingResult)
    (h : isSelfReferential locationName = false) :
    (geocoded = none →
      resolveLocation locationName (some u) revGeo geocoded
        = some { lat := u.lat, lng := u.lng,
                 location_name := revGeo.getD locationName })
  ∧ (∀ g : GeocodingResult, geocoded = some g → g.confidence ≤ mkRat 1 2 →
      resolveLocation locationName (some u) revGeo geocoded
        = some { lat := u.lat, lng := u.lng,
                 location_name := revGeo.getD locationName })
  ∧ (∀ g : GeocodingResult, geocoded = some g → mkRat 1 2 < g.confidence →
      resolveLocation locationName (some u) revGeo geocoded
        = some { lat := g.lat, lng := g.lng,
                 location_name := g.display_name }) := by
  refine ⟨?_, ?_, ?_⟩
  · intro hg; subst hg; simp [resolveLocation, h]
  · intro g hg hle; subst hg
    have hnot : ¬ (g.confidence > mkRat 1 2) := not_lt.mpr hle
    simp [resolveLocation, h, hnot]
  · intro g hg hlt; subst hg
    simp [resolveLocation, h, hlt]

/-- Witness for C6 at a concrete input: a street name whose geocoding
came back with confidence 3/10 ≤ 1/2; the caller GPS wins. -/
theorem resolve_low_confidence_uses_gps_w :
    ((some { lat := 5, lng := 6, display_name := "G", confidence := mkRat 3 10 }
        : Option GeocodingResult) = none →
      resolveLocation "Main Street" (some { lat := 1, lng := 2 }) (some "Addr")
        (some { lat := 5, lng := 6, display_name := "G", confidence := mkRat 3 10 })
        = some { lat := 1, lng := 2, location_name := (some "Addr").getD "Main Street" })
  ∧ (∀ g : GeocodingResult,
      (some { lat := 5, lng := 6, display_name := "G", confidence := mkRat 3 10 }
        : Option GeocodingResult) = some g → g.confidence ≤ mkRat 1 2 →
      resolveLocation "Main Street" (some { lat := 1, lng := 2 }) (some "Addr")
        (some { lat := 5, lng := 6, display_name := "G", confidence := mkRat 3 10 })
        = some { lat := 1, lng := 2, location_name := (some "Addr").getD "Main Street" })
  ∧ (∀ g : GeocodingResult,
      (some { lat := 5, lng := 6, display_name := "G", confidence := mkRat 3 10 }
        : Option GeocodingResult) = some g → mkRat 1 2 < g.confidence →
      resolveLocation "Main Street" (some { lat := 1, lng := 2 }) (some "Addr")
        (some { lat := 5, lng := 6, display_name := "G", confidence := mkRat 3 10 })
        = some { lat := g.lat, lng := g.lng, location_name := g.display_name }) :=
  resolve_low_confidence_uses_gps "Main Street" { lat := 1, lng := 2 } (some "Addr")
    (some { lat := 5, lng := 6, display_name := "G", confidence := mkRat 3 10 })
    (by decide)

/-- C10: every failure of the geocoding collaborators reaches
`resolveLocation` only as a `null` value — `geocodeLocation` answers
`null` on network error, non-OK status, a null body, and an empty
candidate list, and `reverseGeocode` answers `null` on network error,
non-OK status, a null body, and a response with an empty/missing display
name (the embedding is total, so no exception escapes either helper). -/
theorem geocoding_helpers_total_on_failure :
    geocodeLocation SearchResponse.netError = none
  ∧ geocodeLocation SearchResponse.badStatus = none
  ∧ geocodeLocation (SearchResponse.ok none) = none
  ∧ geocodeLocation (SearchResponse.ok (some [])) = none
  ∧ reverseGeocode ReverseResponse.netError = none
  ∧ reverseGeocode ReverseResponse.badStatus = none
  ∧ reverseGeocode (ReverseResponse.ok none) = none
  ∧ reverseGeocode (ReverseResponse.ok (some { display_name := "" })) = none := by
  refine ⟨rfl, rfl, rfl, rfl, rfl, rfl, rfl, by decide⟩
